import Mathlib

/-!
Verification of the BlendNet REST client transport engine
(src/BlendNet/Client.py, class ClientEngine).

The Python code is shallowly embedded: each method becomes a pure Lean
function.  Network and filesystem effects are made explicit:

* the per-attempt outcome of one request/response cycle is an oracle
  `f : Nat -> Attempt A` (attempt number -> what `run_func(req)` did);
* the mutable engine fields (`_ca`, `_context`, bucket-fetch activity)
  become an explicit `EngineState` threaded through the functions;
* `time.sleep`, `_initSSL` calls and `run_func` invocations are counted
  in an `ExecTrace`;
* the destination file of a download is the final `Option (List Nat)`
  (none = the file does not exist on disk afterwards);
* SHA-1 itself is kept abstract: the functions are parameterised by an
  arbitrary digest function `sha1hex : List Nat -> String`, and
  `hashlib.sha1` incremental update is rendered as digesting the
  concatenation of all consumed chunks, which is exactly its contract.
-/

namespace BlendNet

/-- Python truthiness of an optional bytes value (`self._ca`):
`None` and `b''` are falsy. -/
def pyTruthyBytes : Option (List Nat) → Bool
  | none => false
  | some l => !l.isEmpty

/-- Python truthiness of an optional header string: a missing header
(`None`) and the empty string are falsy. -/
def pyFalsyStrOpt : Option String → Bool
  | none => true
  | some s => s == ""

/-- Whether `needle` starts `hay` (character list version). -/
def startsWithL : List Char → List Char → Bool
  | [], _ => true
  | _ :: _, [] => false
  | n :: ns, h :: hs => n == h && startsWithL ns hs

/-- Whether `needle` occurs as a contiguous substring of `hay`
(character list version). -/
def containsSub (needle : List Char) : List Char → Bool
  | [] => startsWithL needle []
  | h :: hs => startsWithL needle (h :: hs) || containsSub needle hs

/-- Python `needle in hay` on strings, as used by
`'CERTIFICATE_VERIFY_FAILED' in str(e.reason)`. -/
def pyIn (needle hay : String) : Bool :=
  containsSub needle.toList hay.toList

/-- The substring `_requestExecute` looks for in `str(e.reason)`. -/
def certMark : String := "CERTIFICATE_VERIFY_FAILED"

/-- Decimal digit value of a character. -/
def digitVal (c : Char) : Option Nat :=
  if c.isDigit then some (c.toNat - 48) else none

/-- Accumulating decimal parser. -/
def parseNatAux : List Char → Nat → Option Nat
  | [], acc => some acc
  | c :: cs, acc =>
    match digitVal c with
    | some d => parseNatAux cs (acc * 10 + d)
    | none => none

/-- Model of Python `int(s)` for the non-negative decimal strings a
`Content-Length` header carries; anything else is a parse failure
(raised `ValueError` in Python). -/
def pyInt (s : String) : Option Nat :=
  match s.toList with
  | [] => none
  | c :: cs => parseNatAux (c :: cs) 0

/-- Number of `%s` conversion specifiers in a format string. -/
def specCount : List Char → Nat
  | '%' :: 's' :: rest => specCount rest + 1
  | _ :: rest => specCount rest
  | [] => 0

/-- Substitute arguments for `%s` specifiers, left to right. -/
def substS : List Char → List String → List Char
  | '%' :: 's' :: rest, a :: args => a.toList ++ substS rest args
  | c :: rest, args => c :: substS rest args
  | [], _ => []

/-- Python `fmt % args` restricted to `%s` specifiers: it succeeds only
when the number of specifiers equals the number of supplied arguments,
otherwise the interpreter raises `TypeError`. -/
def pyFormatS (fmt : String) (args : List String) : Option String :=
  if specCount fmt.toList = args.length then
    some (String.mk (substS fmt.toList args))
  else
    none

/-- Python `str` of an optional string (`str(None) = "None"`). -/
def strOfOptMsg : Option String → String
  | none => "None"
  | some m => m

/-- The engine configuration dictionary `self._cfg`. -/
structure Cfg where
  bucket : String
  listen_port : Nat
  auth_user : String
  auth_password : String
deriving DecidableEq

/-- The mutable fields of `ClientEngine` plus instrumentation:
`ca` is `self._ca`; `ctxGen` counts how many SSL contexts have been
constructed (`_initSSL` builds a fresh one); `ctxHasCA` records whether
`load_verify_locations` has been called on the current context;
`fetches` counts calls to `providers.downloadDataFromBucket`. -/
structure EngineState where
  address : String
  ca : Option (List Nat)
  ctxGen : Nat
  ctxHasCA : Bool
  fetches : Nat
deriving DecidableEq

/-- `ClientEngine._initSSL` (Client.py lines 82-86): build a brand-new
TLS context (no CA loaded into it) and clear the cached CA bundle. -/
def initSSL (s : EngineState) : EngineState :=
  { s with ca := none, ctxGen := s.ctxGen + 1, ctxHasCA := false }

/-- `ClientEngine._getCA` (Client.py lines 88-99).  `bucketData` is the
oracle for `providers.downloadDataFromBucket(cfg['bucket'], 'ca.crt')`.
Returns the boolean result and the updated state. -/
def getCA (bucketData : Option (List Nat)) (s : EngineState) :
    Bool × EngineState :=
  if pyTruthyBytes s.ca then (true, s)
  else
    let s1 := { s with ca := bucketData, fetches := s.fetches + 1 }
    if !pyTruthyBytes s1.ca then (false, s1)
    else (true, { s1 with ctxHasCA := true })

/-- A built `urllib.request.Request`: url, method, whether it carries a
body (`req.data` truthiness), the Basic-auth credentials when the
`Authorization` header was added, and the extra headers added by `put`. -/
structure Req where
  url : String
  method : String
  hasData : Bool
  authCreds : Option String
  extraHeaders : List (String × String)
deriving DecidableEq

/-- `ClientEngine._request` (Client.py lines 101-114): returns `None`
when `_getCA()` fails or the address is empty, otherwise the request
descriptor for `https://{address}:{port}/api/v1/{path}` with a Basic
auth header unless the joined credentials are the sentinel `":"`. -/
def request (cfg : Cfg) (bucketData : Option (List Nat)) (s : EngineState)
    (path : String) (hasData : Bool) (method : String) :
    Option Req × EngineState :=
  let r := getCA bucketData s
  if !r.1 || r.2.address == "" then (none, r.2)
  else
    let creds := cfg.auth_user ++ ":" ++ cfg.auth_password
    (some
      { url := "https://" ++ r.2.address ++ ":" ++ toString cfg.listen_port
            ++ "/api/v1/" ++ path
        method := method
        hasData := hasData
        authCreds := if creds == ":" then none else some creds
        extraHeaders := [] }, r.2)

/-- The exception classes distinguished by `_requestExecute`:
`urllib.error.HTTPError`, `urllib.error.URLError` (with the reason
string and whether `e.reason` is a `BrokenPipeError` instance), and any
other exception caught by the bare `except:`. -/
inductive PyExc where
  | httpError (code : Nat) (reason : String)
  | urlError (reason : String) (reasonBrokenPipe : Bool)
  | otherExc (ty : String)
deriving DecidableEq

/-- One invocation of `run_func(req)`: either a normal return (Python
`None` rendered as `Option.none`) or a raised exception. -/
inductive Attempt (α : Type) where
  | returns (v : Option α)
  | raises (e : PyExc)
deriving DecidableEq

/-- Whether `_requestExecute` reacts to a raised exception by retrying
(HTTP error status, or a `URLError` whose reason mentions
`CERTIFICATE_VERIFY_FAILED`); every other failure aborts the call. -/
def PyExc.retried : PyExc → Bool
  | .httpError _ _ => true
  | .urlError r _ => pyIn certMark r
  | .otherExc _ => false

/-- Whether an attempt outcome is a raised exception that the loop
retries. -/
def Attempt.retriedRaise {α : Type} : Attempt α → Bool
  | .returns _ => false
  | .raises e => e.retried

/-- What `_requestExecute` can hand back when it does not return `None`:
a value returned by `run_func`, or the literal `True` returned for a
broken pipe during a request that carries a body. -/
inductive ExecVal (α : Type) where
  | ret (v : α)
  | pipeTrue
deriving DecidableEq

/-- Instrumentation of one `_requestExecute` call: number of
`run_func` invocations, of `_initSSL` re-initialisations, and of
`time.sleep(1.0)` delays. -/
structure ExecTrace where
  attempts : Nat
  reinits : Nat
  sleeps : Nat
deriving DecidableEq

/-- The trace at the start of a call. -/
def trace0 : ExecTrace := ⟨0, 0, 0⟩

/-- Count one `run_func` invocation. -/
def ExecTrace.bump (t : ExecTrace) : ExecTrace :=
  { t with attempts := t.attempts + 1 }

/-- Count one 1-second retry sleep. -/
def ExecTrace.slept (t : ExecTrace) : ExecTrace :=
  { t with sleeps := t.sleeps + 1 }

/-- Count one `_initSSL` trust reset. -/
def ExecTrace.reset (t : ExecTrace) : ExecTrace :=
  { t with reinits := t.reinits + 1 }

/-- The retry loop body of `ClientEngine._requestExecute`
(Client.py lines 116-139).  `hd` is the truthiness of `req.data`;
`f i` is what `run_func(req)` does on the i-th invocation; `rem` is the
number of loop iterations left out of `range(3)`.  Returns the call
result (`none` = Python `None`), the engine state and the trace. -/
def requestExecuteAux {α : Type} (hd : Bool) (f : Nat → Attempt α) :
    Nat → Nat → EngineState → ExecTrace →
    Option (ExecVal α) × EngineState × ExecTrace
  | _, 0, s, t => (none, s, t)
  | i, rem + 1, s, t =>
    match f i with
    | .returns v => (v.map ExecVal.ret, s, t.bump)
    | .raises (.httpError _ _) =>
      requestExecuteAux hd f (i + 1) rem s t.bump.slept
    | .raises (.urlError r bp) =>
      if pyIn certMark r then
        requestExecuteAux hd f (i + 1) rem (initSSL s) t.bump.reset.slept
      else if bp && hd then (some ExecVal.pipeTrue, s, t.bump)
      else (none, s, t.bump)
    | .raises (.otherExc _) => (none, s, t.bump)

/-- `ClientEngine._requestExecute` (Client.py lines 116-139):
`for repeat in range(3)` around a single attempt. -/
def requestExecute {α : Type} (hd : Bool) (f : Nat → Attempt α)
    (s : EngineState) : Option (ExecVal α) × EngineState × ExecTrace :=
  requestExecuteAux hd f 0 3 s trace0

/-- The decoded JSON envelope `{success, data, message}` of a non-stream
response; every field may be absent. -/
structure Envelope where
  success : Option Bool
  data : Option String
  message : Option String
deriving DecidableEq

/-- Values `_requestExecuteRun` can return on the success path:
`data.get('data', True)` is the payload when present, else `True`. -/
inductive EVal where
  | payload (d : String)
  | pyTrue
deriving DecidableEq

/-- The format string of the failure log in `_requestExecuteRun`
(Client.py line 147); note it contains two `%s` specifiers. -/
def fmtExecIssue : String := "ERROR: Execution issue from API for \"%s\": %s"

/-- `ClientEngine._requestExecuteRun` (Client.py lines 141-150) after a
successful `urlopen` whose body decoded to `env`.  On
`success = false` the code evaluates
`'... "%s": %s' % (data.get('message'))`, i.e. one argument for two
specifiers, so the formatting itself raises `TypeError` before anything
is printed; otherwise it returns `data.get('data', True)`.  The second
component is the list of lines this function printed. -/
def requestExecuteRun (env : Envelope) : Attempt EVal × List String :=
  if (env.success.getD false) = false then
    match pyFormatS fmtExecIssue [strOfOptMsg env.message] with
    | none => (.raises (.otherExc "TypeError"), [])
    | some line => (.returns none, [line])
  else
    (.returns (some (match env.data with
      | some d => EVal.payload d
      | none => EVal.pyTrue)), [])

/-- A download response: the two headers `_requestDownloadRun` reads and
the body byte stream. -/
structure DLResp where
  contentLength : Option String
  checksumSha1 : Option String
  body : List Nat
deriving DecidableEq

/-- The download destination: `req._out_path` (a file path) or
`req._out_func` (a caller-supplied sink whose result, as a function of
the declared size and checksum, is an oracle). -/
inductive Target where
  | filePath (p : String)
  | sink (g : Nat → String → Option Bool)

/-- What `_requestDownloadRun` does: return `False` (missing headers),
return the `(hexdigest, out_path)` pair, return the sink result, raise
`urllib.error.URLError` with the given reason, or raise some other
exception. -/
inductive DLOut where
  | retFalse
  | retPair (digest : String) (p : String)
  | retSink (v : Option Bool)
  | raiseURL (reason : String)
  | raiseOther (ty : String)
deriving DecidableEq

/-- Values the download executor can return normally, for feeding the
retry loop. -/
inductive DLVal where
  | rFalse
  | pair (digest p : String)
  | sinkVal (b : Bool)
deriving DecidableEq

/-- The chunk bound `1048576` (1 MiB) of Client.py line 169. -/
def chunkCap : Nat := 1048576

/-- The read/write loop of `_requestDownloadRun` (Client.py lines
169-172): repeatedly `res.read(min(1048576, size_left))` until the read
returns `b''`; returns the concatenation of all chunks written to the
file (which is also what the running SHA-1 digested).  `res.read n`
yields the next `min n remaining` bytes of the body. -/
def dlLoop (body : List Nat) (sizeLeft : Nat) : List Nat :=
  if h : body.take (min chunkCap sizeLeft) = [] then []
  else
    body.take (min chunkCap sizeLeft) ++
      dlLoop (body.drop (min chunkCap sizeLeft))
        (sizeLeft - (body.take (min chunkCap sizeLeft)).length)
termination_by sizeLeft
decreasing_by
  have hlen : 0 < (body.take (min chunkCap sizeLeft)).length :=
    List.length_pos.mpr h
  have hmin : 0 < min chunkCap sizeLeft := by
    rcases Nat.eq_zero_or_pos (min chunkCap sizeLeft) with h0 | h1
    · exact absurd (by simp [h0]) h
    · exact h1
  exact Nat.sub_lt (Nat.lt_of_lt_of_le hmin (Nat.min_le_right _ _)) hlen

/-- `ClientEngine._requestDownloadRun` (Client.py lines 152-178) after a
successful `urlopen` that produced response `resp`.  Checks the two
required headers (Python falsy test), parses `Content-Length`,
dispatches on the destination, and for a file destination writes the
chunks, compares the computed digest with the declared one, raising
`URLError('Incorrect sha1 signature')` on mismatch; any exception in the
file branch removes the partially written file before propagating.  The
second component is the destination file content afterwards
(`none` = no file on disk). -/
def requestDownloadRun (sha1hex : List Nat → String) (resp : DLResp)
    (out : Target) : DLOut × Option (List Nat) :=
  if pyFalsyStrOpt resp.contentLength || pyFalsyStrOpt resp.checksumSha1 then
    (.retFalse, none)
  else
    match pyInt (resp.contentLength.getD "") with
    | none => (.raiseOther "ValueError", none)
    | some size =>
      match out with
      | .sink g => (.retSink (g size (resp.checksumSha1.getD "")), none)
      | .filePath p =>
        let written := dlLoop resp.body size
        if resp.checksumSha1.getD "" ≠ sha1hex written then
          (.raiseURL "Incorrect sha1 signature", none)
        else
          (.retPair (sha1hex written) p, some written)

/-- Reflect a download-executor outcome into the retry loop. -/
def dlAttempt : DLOut → Attempt DLVal
  | .retFalse => .returns (some .rFalse)
  | .retPair d p => .returns (some (.pair d p))
  | .retSink v => .returns (v.map DLVal.sinkVal)
  | .raiseURL r => .raises (.urlError r false)
  | .raiseOther ty => .raises (.otherExc ty)

/-- An engine operation result: a normal return value, or an uncaught
Python exception escaping the method. -/
inductive OpResult (α : Type) where
  | value (v : Option (ExecVal α))
  | pyError (ty : String)
deriving DecidableEq

/-- `ClientEngine.get` (Client.py lines 180-186).  `env` is the decoded
envelope the server answers with (the same on every attempt). -/
def get (cfg : Cfg) (bucketData : Option (List Nat)) (env : Envelope)
    (path : String) (s : EngineState) :
    OpResult EVal × EngineState × ExecTrace :=
  match request cfg bucketData s path false "GET" with
  | (none, s1) => (.value none, s1, trace0)
  | (some req, s1) =>
    let r := requestExecute req.hasData (fun _ => (requestExecuteRun env).1) s1
    (.value r.1, r.2.1, r.2.2)

/-- `ClientEngine.delete` (Client.py lines 188-194). -/
def delete (cfg : Cfg) (bucketData : Option (List Nat)) (env : Envelope)
    (path : String) (s : EngineState) :
    OpResult EVal × EngineState × ExecTrace :=
  match request cfg bucketData s path false "DELETE" with
  | (none, s1) => (.value none, s1, trace0)
  | (some req, s1) =>
    let r := requestExecute req.hasData (fun _ => (requestExecuteRun env).1) s1
    (.value r.1, r.2.1, r.2.2)

/-- `ClientEngine.put` (Client.py lines 196-204).  Unlike `get`,
`delete` and `download`, this method has no `if not req` guard: when
`_request` returns `None`, the call `req.add_header(...)` raises
`AttributeError` on the `None` object.  The body stream itself is
opaque; only its truthiness as `req.data` matters (a stream object is
truthy, so `hasData = true`). -/
def put (cfg : Cfg) (bucketData : Option (List Nat)) (env : Envelope)
    (path : String) (size : Nat) (checksum : Option String)
    (s : EngineState) : OpResult EVal × EngineState × ExecTrace :=
  match request cfg bucketData s path true "PUT" with
  | (none, s1) => (.pyError "AttributeError", s1, trace0)
  | (some req, s1) =>
    let req1 := { req with extraHeaders :=
      [("Content-Length", toString size),
       ("Content-Type", "application/octet-stream")] ++
      (match checksum with
       | some c => [("X-Checksum-Sha1", c)]
       | none => []) }
    let r := requestExecute req1.hasData (fun _ => (requestExecuteRun env).1) s1
    (.value r.1, r.2.1, r.2.2)

/-- `ClientEngine.download` (Client.py lines 206-217).  `resp` is the
download response served on every attempt; the last component is the
destination file content afterwards. -/
def download (cfg : Cfg) (bucketData : Option (List Nat))
    (sha1hex : List Nat → String) (path : String) (resp : DLResp)
    (out : Target) (s : EngineState) :
    OpResult DLVal × EngineState × ExecTrace × Option (List Nat) :=
  match request cfg bucketData s path false "GET" with
  | (none, s1) => (.value none, s1, trace0, none)
  | (some req, s1) =>
    let run := requestDownloadRun sha1hex resp out
    let r := requestExecute req.hasData (fun _ => dlAttempt run.1) s1
    (.value r.1, r.2.1, r.2.2, run.2)

/-! ### Helper lemmas -/

@[simp] theorem ExecTrace.bump_attempts (t : ExecTrace) :
    t.bump.attempts = t.attempts + 1 := rfl

@[simp] theorem ExecTrace.bump_reinits (t : ExecTrace) :
    t.bump.reinits = t.reinits := rfl

@[simp] theorem ExecTrace.bump_sleeps (t : ExecTrace) :
    t.bump.sleeps = t.sleeps := rfl

@[simp] theorem ExecTrace.slept_attempts (t : ExecTrace) :
    t.slept.attempts = t.attempts := rfl

@[simp] theorem ExecTrace.slept_reinits (t : ExecTrace) :
    t.slept.reinits = t.reinits := rfl

@[simp] theorem ExecTrace.slept_sleeps (t : ExecTrace) :
    t.slept.sleeps = t.sleeps + 1 := rfl

@[simp] theorem ExecTrace.reset_attempts (t : ExecTrace) :
    t.reset.attempts = t.attempts := rfl

@[simp] theorem ExecTrace.reset_reinits (t : ExecTrace) :
    t.reset.reinits = t.reinits + 1 := rfl

@[simp] theorem ExecTrace.reset_sleeps (t : ExecTrace) :
    t.reset.sleeps = t.sleeps := rfl

/-- One unfolding step of the retry loop when an iteration remains. -/
theorem requestExecuteAux_succ {α : Type} (hd : Bool) (f : Nat → Attempt α)
    (i rem : Nat) (s : EngineState) (t : ExecTrace) :
    requestExecuteAux hd f i (rem + 1) s t =
      match f i with
      | .returns v => (v.map ExecVal.ret, s, t.bump)
      | .raises (.httpError _ _) =>
        requestExecuteAux hd f (i + 1) rem s t.bump.slept
      | .raises (.urlError r bp) =>
        if pyIn certMark r then
          requestExecuteAux hd f (i + 1) rem (initSSL s) t.bump.reset.slept
        else if bp && hd then (some ExecVal.pipeTrue, s, t.bump)
        else (none, s, t.bump)
      | .raises (.otherExc _) => (none, s, t.bump) := rfl

/-- The loop with no iterations left falls through and returns `None`. -/
theorem requestExecuteAux_zero {α : Type} (hd : Bool) (f : Nat → Attempt α)
    (i : Nat) (s : EngineState) (t : ExecTrace) :
    requestExecuteAux hd f i 0 s t = (none, s, t) := rfl

/-- A step whose attempt returns a value hands it straight back:
one more invocation, no sleep, no reset, state untouched. -/
theorem requestExecuteAux_returns {α : Type} (hd : Bool)
    (f : Nat → Attempt α) (i rem : Nat) (s : EngineState) (t : ExecTrace)
    (v : Option α) (hf : f i = .returns v) :
    requestExecuteAux hd f i (rem + 1) s t = (v.map ExecVal.ret, s, t.bump) := by
  rw [requestExecuteAux_succ, hf]

/-- A step whose attempt raises a `URLError` that is neither a
certificate failure nor a broken pipe on a body-carrying request aborts
the call at once with `None`. -/
theorem requestExecuteAux_urlAbort {α : Type} (hd : Bool)
    (f : Nat → Attempt α) (i rem : Nat) (s : EngineState) (t : ExecTrace)
    (r : String) (bp : Bool) (hf : f i = .raises (.urlError r bp))
    (hcert : pyIn certMark r = false) (hbp : (bp && hd) = false) :
    requestExecuteAux hd f i (rem + 1) s t = (none, s, t.bump) := by
  rw [requestExecuteAux_succ, hf]
  simp [hcert, hbp]

/-- A step whose attempt raises an exception caught by the bare
`except:` aborts the call at once with `None`. -/
theorem requestExecuteAux_otherAbort {α : Type} (hd : Bool)
    (f : Nat → Attempt α) (i rem : Nat) (s : EngineState) (t : ExecTrace)
    (ty : String) (hf : f i = .raises (.otherExc ty)) :
    requestExecuteAux hd f i (rem + 1) s t = (none, s, t.bump) := by
  rw [requestExecuteAux_succ, hf]

/-- The retry loop invokes `run_func` at most `rem` more times. -/
theorem requestExecuteAux_attempts_le {α : Type} (hd : Bool)
    (f : Nat → Attempt α) :
    ∀ (rem i : Nat) (s : EngineState) (t : ExecTrace),
      ((requestExecuteAux hd f i rem s t).2.2).attempts ≤ t.attempts + rem := by
  intro rem
  induction rem with
  | zero =>
    intro i s t
    simp [requestExecuteAux_zero]
  | succ rem ih =>
    intro i s t
    rw [requestExecuteAux_succ]
    cases hf : f i with
    | returns v =>
      dsimp only
      simp only [ExecTrace.bump_attempts]
      omega
    | raises e =>
      cases e with
      | httpError code reason =>
        dsimp only
        have hr := ih (i + 1) s t.bump.slept
        simp only [ExecTrace.slept_attempts, ExecTrace.bump_attempts] at hr
        omega
      | urlError r bp =>
        dsimp only
        by_cases hc : pyIn certMark r = true
        · rw [if_pos hc]
          have hr := ih (i + 1) (initSSL s) t.bump.reset.slept
          simp only [ExecTrace.slept_attempts, ExecTrace.reset_attempts,
            ExecTrace.bump_attempts] at hr
          omega
        · rw [if_neg hc]
          by_cases hb : (bp && hd) = true
          · rw [if_pos hb]
            simp only [ExecTrace.bump_attempts]
            omega
          · rw [if_neg hb]
            simp only [ExecTrace.bump_attempts]
            omega
      | otherExc ty =>
        dsimp only
        simp only [ExecTrace.bump_attempts]
        omega

/-- If every attempt the loop can reach raises a retried failure
(HTTP error or certificate failure), the loop runs through all its
iterations and returns `None`. -/
theorem requestExecuteAux_exhaust {α : Type} (hd : Bool)
    (f : Nat → Attempt α) :
    ∀ (rem i : Nat) (s : EngineState) (t : ExecTrace),
      (∀ j, j < i + rem → (f j).retriedRaise = true) →
      (requestExecuteAux hd f i rem s t).1 = none ∧
      ((requestExecuteAux hd f i rem s t).2.2).attempts = t.attempts + rem := by
  intro rem
  induction rem with
  | zero =>
    intro i s t _
    exact ⟨rfl, rfl⟩
  | succ rem ih =>
    intro i s t h
    have hi : (f i).retriedRaise = true := h i (by omega)
    rw [requestExecuteAux_succ]
    cases hf : f i with
    | returns v =>
      rw [hf] at hi
      simp [Attempt.retriedRaise] at hi
    | raises e =>
      cases e with
      | httpError code reason =>
        dsimp only
        have hrec := ih (i + 1) s t.bump.slept
          (by intro j hj; exact h j (by omega))
        refine ⟨hrec.1, ?_⟩
        rw [hrec.2]
        simp only [ExecTrace.slept_attempts, ExecTrace.bump_attempts]
        omega
      | urlError r bp =>
        rw [hf] at hi
        simp only [Attempt.retriedRaise, PyExc.retried] at hi
        dsimp only
        rw [if_pos hi]
        have hrec := ih (i + 1) (initSSL s) t.bump.reset.slept
          (by intro j hj; exact h j (by omega))
        refine ⟨hrec.1, ?_⟩
        rw [hrec.2]
        simp only [ExecTrace.slept_attempts, ExecTrace.reset_attempts,
          ExecTrace.bump_attempts]
        omega
      | otherExc ty =>
        rw [hf] at hi
        simp [Attempt.retriedRaise, PyExc.retried] at hi

/-- Auxiliary classification facts: `take n l = []` forces `n = 0` or
`l = []`. -/
theorem take_nil_cases : ∀ (n : Nat) (l : List Nat), l.take n = [] →
    n = 0 ∨ l = []
  | 0, _, _ => Or.inl rfl
  | _ + 1, [], _ => Or.inr rfl
  | _ + 1, _ :: _, h => by simp at h

/-- Fuel-bounded version: when the declared size equals the body
length, the chunk loop consumes the whole body. -/
theorem dlLoop_self_aux : ∀ (k : Nat) (body : List Nat),
    body.length ≤ k → dlLoop body body.length = body := by
  intro k
  induction k with
  | zero =>
    intro body h
    have hb : body = [] := List.eq_nil_of_length_eq_zero (Nat.le_zero.mp h)
    subst hb
    rw [dlLoop]
    simp
  | succ k ih =>
    intro body h
    rw [dlLoop]
    by_cases hb : body = []
    · subst hb; simp
    · have hlpos : 0 < body.length := List.length_pos.mpr hb
      have hmpos : 0 < min chunkCap body.length :=
        Nat.lt_min.mpr ⟨by decide, hlpos⟩
      have htake : body.take (min chunkCap body.length) ≠ [] := by
        intro hcon
        rcases take_nil_cases _ _ hcon with h0 | h0
        · omega
        · exact hb h0
      rw [dif_neg htake]
      have hlen_take : (body.take (min chunkCap body.length)).length
          = min chunkCap body.length := by
        rw [List.length_take]
        exact Nat.min_eq_left (Nat.min_le_right _ _)
      have hdrop : body.length - (body.take (min chunkCap body.length)).length
          = (body.drop (min chunkCap body.length)).length := by
        rw [hlen_take, List.length_drop]
      rw [hdrop, ih (body.drop (min chunkCap body.length)) ?_]
      · exact List.take_append_drop _ _
      · rw [List.length_drop]
        omega

/-- When the declared size equals the body length, the chunk loop
writes exactly the body. -/
theorem dlLoop_self (body : List Nat) : dlLoop body body.length = body :=
  dlLoop_self_aux body.length body (Nat.le_refl _)

/-- Fuel-bounded version of the write bound. -/
theorem dlLoop_length_le_aux : ∀ (k n : Nat) (body : List Nat), n ≤ k →
    (dlLoop body n).length ≤ n := by
  intro k
  induction k with
  | zero =>
    intro n body h
    have hn : n = 0 := Nat.le_zero.mp h
    subst hn
    rw [dlLoop]
    simp
  | succ k ih =>
    intro n body h
    rw [dlLoop]
    by_cases hc : body.take (min chunkCap n) = []
    · rw [dif_pos hc]; simp
    · rw [dif_neg hc]
      have hcl : 0 < (body.take (min chunkCap n)).length :=
        List.length_pos.mpr hc
      have hle : (body.take (min chunkCap n)).length ≤ n :=
        Nat.le_trans (List.length_take_le _ _) (Nat.min_le_right _ _)
      have hnpos : 0 < n := by
        by_contra hz
        have hn0 : n = 0 := by omega
        subst hn0
        simp at hc
      have hrec := ih (n - (body.take (min chunkCap n)).length)
        (body.drop (min chunkCap n)) (by omega)
      rw [List.length_append]
      omega

/-- The chunk loop never produces more than the declared size: every
read is capped by `min(1048576, size_left)`. -/
theorem dlLoop_length_le (body : List Nat) (n : Nat) :
    (dlLoop body n).length ≤ n :=
  dlLoop_length_le_aux n n body (Nat.le_refl _)

/-! ### Concrete fixtures used by witnesses and counterexamples -/

/-- A generic engine state with a cached, installed CA. -/
def stA : EngineState := ⟨"manager", some [1], 1, true, 1⟩

/-- An abstract digest function used in witnesses. -/
def w8hash : List Nat → String := fun _ => "h"

/-! ### Claims -/

/-- C1: for every file-destination download in which the computed SHA-1
of the received body (here: a body of exactly the declared length)
differs from the checksum declared in the `X-Checksum-Sha1` header, the
download executor raises `URLError('Incorrect sha1 signature')` with
the destination file already deleted (final file state `none`), and the
surrounding `_requestExecute` call returns `None` after that single
attempt — it never returns a success value, and afterwards the
destination file does not exist. -/
theorem download_mismatch_cleanup
    (sha1hex : List Nat → String) (p cl hdr : String) (body : List Nat)
    (n : Nat) (s : EngineState)
    (hclne : (cl == "") = false) (hhdrne : (hdr == "") = false)
    (hcl : pyInt cl = some n) (hlen : body.length = n)
    (hmm : hdr ≠ sha1hex body) :
    requestDownloadRun sha1hex ⟨some cl, some hdr, body⟩ (.filePath p)
      = (.raiseURL "Incorrect sha1 signature", none) ∧
    requestExecute false
      (fun _ => dlAttempt
        (requestDownloadRun sha1hex ⟨some cl, some hdr, body⟩ (.filePath p)).1) s
      = (none, s, trace0.bump) := by
  have hw : dlLoop body n = body := by
    rw [← hlen]; exact dlLoop_self body
  have h1 : requestDownloadRun sha1hex ⟨some cl, some hdr, body⟩ (.filePath p)
      = (.raiseURL "Incorrect sha1 signature", none) := by
    simp [requestDownloadRun, pyFalsyStrOpt, hclne, hhdrne, hcl, hw, hmm]
  refine ⟨h1, ?_⟩
  simp only [h1]
  exact requestExecuteAux_urlAbort false _ 0 2 s trace0
    "Incorrect sha1 signature" false rfl (by decide) rfl

/-- Witness for C1 at a concrete one-byte download whose declared
checksum disagrees with the computed digest. -/
theorem download_mismatch_cleanup_witness :
    (("1" == "") = false) ∧ (("x" == "") = false) ∧ pyInt "1" = some 1 ∧
    ([(5 : Nat)].length = 1) ∧ ("x" ≠ w8hash [5]) ∧
    (requestDownloadRun w8hash ⟨some "1", some "x", [5]⟩ (.filePath "/tmp/out")
       = (.raiseURL "Incorrect sha1 signature", none) ∧
     requestExecute false
       (fun _ => dlAttempt
         (requestDownloadRun w8hash ⟨some "1", some "x", [5]⟩
           (.filePath "/tmp/out")).1) stA
       = (none, stA, trace0.bump)) :=
  ⟨by decide, by decide, by decide, by decide, by decide,
   download_mismatch_cleanup w8hash "/tmp/out" "1" "x" [5] 1 stA
     (by decide) (by decide) (by decide) (by decide) (by decide)⟩

/-- C2: for every logical call the retry executor invokes the
single-attempt execute function at most 3 times, and if all 3 attempts
raise retried failures (the budget is exhausted without a successful
attempt) the call returns `None`. -/
theorem requestExecute_attempt_budget {α : Type} (hd : Bool)
    (f : Nat → Attempt α) (s : EngineState) :
    ((requestExecute hd f s).2.2).attempts ≤ 3 ∧
    ((∀ j, j < 3 → (f j).retriedRaise = true) →
      (requestExecute hd f s).1 = none ∧
      ((requestExecute hd f s).2.2).attempts = 3) := by
  constructor
  · have h := requestExecuteAux_attempts_le hd f 3 0 s trace0
    simpa [requestExecute, trace0] using h
  · intro hall
    have h := requestExecuteAux_exhaust hd f 3 0 s trace0
      (by simpa using hall)
    simpa [requestExecute, trace0] using h

/-- The 3-HTTP-error executor used in the C2 witness. -/
def wHttpF : Nat → Attempt Nat :=
  fun _ => .raises (.httpError 500 "Internal Server Error")

/-- Witness for C2: three consecutive HTTP errors exhaust the budget
and yield an absent result. -/
theorem requestExecute_attempt_budget_witness :
    ((requestExecute false wHttpF stA).2.2).attempts ≤ 3 ∧
    ((requestExecute false wHttpF stA).1 = none ∧
     ((requestExecute false wHttpF stA).2.2).attempts = 3) :=
  ⟨(requestExecute_attempt_budget false wHttpF stA).1,
   (requestExecute_attempt_budget false wHttpF stA).2 (fun _ _ => rfl)⟩

/-- The attempt oracle of the C3 counterexample and witness: a
certificate failure, then success. -/
def c3f : Nat → Attempt Nat
  | 0 => .raises (.urlError certMark false)
  | _ + 1 => .returns (some 7)

/-- The engine state of the C3 counterexample: CA cached, installed,
fetched once. -/
def c3s : EngineState := ⟨"manager", some [1, 2], 1, true, 1⟩

/-- C3 counterexample: a certificate failure on attempt 0 followed by a
success on attempt 1.  The call succeeds after exactly one trust reset,
but the fetch counter of the final state is unchanged and the context
the retried attempt ran under has no CA bundle cached and none loaded:
the trust fetch-and-install is NOT performed again before the retried
attempt is sent (the loop never calls `_getCA`). -/
theorem certFailure_retry_without_refetch :
    (requestExecute false c3f c3s).1 = some (.ret 7) ∧
    ((requestExecute false c3f c3s).2.2).reinits = 1 ∧
    ((requestExecute false c3f c3s).2.1).fetches = c3s.fetches ∧
    ((requestExecute false c3f c3s).2.1).ca = none ∧
    ((requestExecute false c3f c3s).2.1).ctxHasCA = false := by
  decide

/-- C3 amended: when attempt `i` fails with a certificate-verification
failure, exactly one trust reset occurs (`_initSSL`: the cached CA
bundle is cleared and a brand-new TLS context is constructed), and the
next attempt within the same 3-attempt budget runs and can succeed;
however the trust fetch-and-install is NOT performed again before the
retried attempt: that attempt runs under the reset state — no cached
bundle, no CA loaded into the fresh context, fetch count unchanged. -/
theorem certFailure_reset_then_retry {α : Type} (hd : Bool)
    (f : Nat → Attempt α) (i rem : Nat) (s : EngineState) (t : ExecTrace)
    (r : String) (bp : Bool) (v : α)
    (hf : f i = .raises (.urlError r bp))
    (hcert : pyIn certMark r = true)
    (hf1 : f (i + 1) = .returns (some v)) :
    requestExecuteAux hd f i (rem + 1 + 1) s t
      = (some (.ret v), initSSL s, t.bump.reset.slept.bump) ∧
    (initSSL s).ca = none ∧
    (initSSL s).ctxGen = s.ctxGen + 1 ∧
    (initSSL s).ctxHasCA = false ∧
    (initSSL s).fetches = s.fetches := by
  refine ⟨?_, rfl, rfl, rfl, rfl⟩
  rw [requestExecuteAux_succ, hf]
  dsimp only
  rw [if_pos hcert]
  rw [requestExecuteAux_returns hd f (i + 1) rem (initSSL s)
    t.bump.reset.slept (some v) hf1]
  rfl

/-- Witness for the amended C3 at the concrete certificate-failure
oracle. -/
theorem certFailure_reset_then_retry_witness :
    c3f 0 = .raises (.urlError certMark false) ∧
    pyIn certMark certMark = true ∧
    c3f (0 + 1) = .returns (some 7) ∧
    (requestExecuteAux false c3f 0 (1 + 1 + 1) c3s trace0
       = (some (.ret 7), initSSL c3s, trace0.bump.reset.slept.bump) ∧
     (initSSL c3s).ca = none ∧
     (initSSL c3s).ctxGen = c3s.ctxGen + 1 ∧
     (initSSL c3s).ctxHasCA = false ∧
     (initSSL c3s).fetches = c3s.fetches) :=
  ⟨rfl, by decide, rfl,
   certFailure_reset_then_retry false c3f 0 1 c3s trace0 certMark false 7
     rfl (by decide) rfl⟩

/-- The configuration of the trust-unavailable scenario. -/
def c4cfg : Cfg := ⟨"bucket", 8443, "", ""⟩

/-- Engine state with no cached CA and nothing fetched yet. -/
def c4s : EngineState := ⟨"manager", none, 0, false, 0⟩

/-- A successful envelope (never reached in the C4 scenario). -/
def c4env : Envelope := ⟨some true, none, none⟩

/-- A download response (never reached in the C4 scenario). -/
def c4resp : DLResp := ⟨some "1", some "h", [0]⟩

/-- C4 (code bug in `put`): with no cached CA bundle and the bucket
fetch returning absent, `get`, `delete` and `download` return `None`
with zero attempts — no HTTP request is ever made — but `put` raises
`AttributeError` instead of returning an absent value, because unlike
its siblings it has no `if not req` guard before `req.add_header`. -/
theorem trustUnavailable_put_raises :
    (get c4cfg none c4env "info" c4s).1 = .value none ∧
    ((get c4cfg none c4env "info" c4s).2.2).attempts = 0 ∧
    (delete c4cfg none c4env "task/1" c4s).1 = .value none ∧
    ((delete c4cfg none c4env "task/1" c4s).2.2).attempts = 0 ∧
    (download c4cfg none w8hash "task/1/file" c4resp (.filePath "/tmp/f") c4s).1
      = .value none ∧
    ((download c4cfg none w8hash "task/1/file" c4resp (.filePath "/tmp/f") c4s).2.2.1).attempts
      = 0 ∧
    (download c4cfg none w8hash "task/1/file" c4resp (.filePath "/tmp/f") c4s).2.2.2
      = none ∧
    (put c4cfg none c4env "task/1/config" 42 none c4s).1
      = .pyError "AttributeError" ∧
    ((put c4cfg none c4env "task/1/config" 42 none c4s).2.2).attempts = 0 := by
  decide

/-- The broken-pipe attempt oracle of the C5 witness. -/
def w5f : Nat → Attempt Nat := fun _ => .raises (.urlError "Broken pipe" true)

/-- C5: an attempt failing with a network error whose reason is a
`BrokenPipeError` while the request carries a body (PUT) makes the
retry loop return the sentinel success `True` immediately: exactly one
more invocation, no further attempt, no sleep, no trust reset. -/
theorem brokenPipe_put_short_circuits {α : Type} (f : Nat → Attempt α)
    (i rem : Nat) (s : EngineState) (t : ExecTrace) (r : String)
    (hf : f i = .raises (.urlError r true))
    (hcert : pyIn certMark r = false) :
    requestExecuteAux true f i (rem + 1) s t = (some .pipeTrue, s, t.bump) ∧
    t.bump.sleeps = t.sleeps ∧ t.bump.reinits = t.reinits ∧
    t.bump.attempts = t.attempts + 1 := by
  refine ⟨?_, rfl, rfl, rfl⟩
  rw [requestExecuteAux_succ, hf]
  dsimp only
  rw [if_neg (by simp [hcert])]
  simp

/-- Witness for C5 at a concrete broken-pipe failure during a PUT. -/
theorem brokenPipe_put_short_circuits_witness :
    w5f 0 = .raises (.urlError "Broken pipe" true) ∧
    pyIn certMark "Broken pipe" = false ∧
    (requestExecuteAux true w5f 0 (2 + 1) stA trace0
       = (some .pipeTrue, stA, trace0.bump) ∧
     trace0.bump.sleeps = trace0.sleeps ∧
     trace0.bump.reinits = trace0.reinits ∧
     trace0.bump.attempts = trace0.attempts + 1) :=
  ⟨rfl, by decide,
   brokenPipe_put_short_circuits w5f 0 2 stA trace0 "Broken pipe" rfl
     (by decide)⟩

/-- The generic-network-failure attempt oracle of the C6 witness. -/
def w6f : Nat → Attempt Nat :=
  fun _ => .raises (.urlError "Connection refused" false)

/-- C6: a first-attempt network failure that is neither a certificate
failure nor the broken-pipe-during-PUT case makes the call return
`None` immediately: exactly one attempt, zero sleeps, zero trust
resets, state untouched. -/
theorem networkFailure_aborts_immediately {α : Type} (hd : Bool)
    (f : Nat → Attempt α) (s : EngineState) (r : String) (bp : Bool)
    (hf : f 0 = .raises (.urlError r bp))
    (hcert : pyIn certMark r = false)
    (hbp : (bp && hd) = false) :
    requestExecute hd f s = (none, s, ⟨1, 0, 0⟩) :=
  requestExecuteAux_urlAbort hd f 0 2 s trace0 r bp hf hcert hbp

/-- Witness for C6 at a concrete connection-refused failure. -/
theorem networkFailure_aborts_immediately_witness :
    w6f 0 = .raises (.urlError "Connection refused" false) ∧
    pyIn certMark "Connection refused" = false ∧
    ((false && false) = false) ∧
    requestExecute false w6f stA = (none, stA, ⟨1, 0, 0⟩) :=
  ⟨rfl, by decide, rfl,
   networkFailure_aborts_immediately false w6f stA "Connection refused"
     false rfl (by decide) rfl⟩

/-- The configuration of the C7 scenario. -/
def c7cfg : Cfg := ⟨"bucket", 8443, "user", "pass"⟩

/-- Engine state with a cached and installed CA. -/
def c7s : EngineState := ⟨"manager", some [7], 1, true, 1⟩

/-- An envelope with `success = false` and a message. -/
def c7env : Envelope := ⟨some false, none, some "boom"⟩

/-- C7 (code bug in the failure log): on a non-stream call whose
envelope has `success = false`, the log statement of
`_requestExecuteRun` applies a two-specifier format string to a single
argument, so it raises `TypeError` and prints nothing — the envelope
message is never logged; the exception lands in the bare `except:` of
the retry loop, which returns `None` after this single attempt, so the
absent result and the absence of a retry do hold. -/
theorem envelopeFailure_log_raises :
    requestExecuteRun c7env = (.raises (.otherExc "TypeError"), []) ∧
    pyFormatS fmtExecIssue [strOfOptMsg c7env.message] = none ∧
    (get c7cfg none c7env "status" c7s).1 = .value none ∧
    ((get c7cfg none c7env "status" c7s).2.2).attempts = 1 ∧
    ((get c7cfg none c7env "status" c7s).2.2).sleeps = 0 := by
  decide

/-- C8: a download response with a `Content-Length` parsing to the
exact body length and an `X-Checksum-Sha1` equal to the digest of the
body makes the file-destination transfer write exactly the body to the
destination file and return the declared digest with the path; the
surrounding call hands that pair back after one attempt. -/
theorem download_roundtrip_writes_body
    (sha1hex : List Nat → String) (p cl : String) (body : List Nat)
    (n : Nat) (s : EngineState)
    (hclne : (cl == "") = false) (hcl : pyInt cl = some n)
    (hlen : body.length = n)
    (hhne : ((sha1hex body) == "") = false) :
    requestDownloadRun sha1hex ⟨some cl, some (sha1hex body), body⟩
      (.filePath p) = (.retPair (sha1hex body) p, some body) ∧
    requestExecute false
      (fun _ => dlAttempt
        (requestDownloadRun sha1hex ⟨some cl, some (sha1hex body), body⟩
          (.filePath p)).1) s
      = (some (.ret (.pair (sha1hex body) p)), s, trace0.bump) := by
  have hw : dlLoop body n = body := by
    rw [← hlen]; exact dlLoop_self body
  have h1 : requestDownloadRun sha1hex ⟨some cl, some (sha1hex body), body⟩
      (.filePath p) = (.retPair (sha1hex body) p, some body) := by
    simp [requestDownloadRun, pyFalsyStrOpt, hclne, hhne, hcl, hw]
  refine ⟨h1, ?_⟩
  simp only [h1]
  exact requestExecuteAux_returns false _ 0 2 s trace0
    (some (DLVal.pair (sha1hex body) p)) rfl

/-- Witness for C8 at a concrete two-byte download. -/
theorem download_roundtrip_writes_body_witness :
    (("2" == "") = false) ∧ pyInt "2" = some 2 ∧
    ([(3 : Nat), 4].length = 2) ∧ ((w8hash [3, 4] == "") = false) ∧
    (requestDownloadRun w8hash ⟨some "2", some (w8hash [3, 4]), [3, 4]⟩
       (.filePath "/tmp/r") = (.retPair (w8hash [3, 4]) "/tmp/r", some [3, 4]) ∧
     requestExecute false
       (fun _ => dlAttempt
         (requestDownloadRun w8hash ⟨some "2", some (w8hash [3, 4]), [3, 4]⟩
           (.filePath "/tmp/r")).1) stA
       = (some (.ret (.pair (w8hash [3, 4]) "/tmp/r")), stA, trace0.bump)) :=
  ⟨by decide, by decide, by decide, by decide,
   download_roundtrip_writes_body w8hash "/tmp/r" "2" [3, 4] 2 stA
     (by decide) (by decide) (by decide) (by decide)⟩

/-- C9: a download response missing a `Content-Length` or an
`X-Checksum-Sha1` header (Python falsy test, so an empty value counts
too) makes the download executor return `False` at once without
touching the destination, for either destination kind, and the retry
loop hands that `False` straight back after exactly one attempt — no
retry, no sleep, and no success value. -/
theorem download_missing_headers_hard_fail
    (sha1hex : List Nat → String) (resp : DLResp) (out : Target)
    (s : EngineState)
    (h : (pyFalsyStrOpt resp.contentLength || pyFalsyStrOpt resp.checksumSha1)
      = true) :
    requestDownloadRun sha1hex resp out = (.retFalse, none) ∧
    requestExecute false
      (fun _ => dlAttempt (requestDownloadRun sha1hex resp out).1) s
      = (some (.ret .rFalse), s, trace0.bump) := by
  have h1 : requestDownloadRun sha1hex resp out = (.retFalse, none) := by
    unfold requestDownloadRun
    rw [if_pos h]
  refine ⟨h1, ?_⟩
  simp only [h1]
  exact requestExecuteAux_returns false _ 0 2 s trace0 (some DLVal.rFalse) rfl

/-- Witness for C9 at a concrete response lacking `Content-Length`. -/
theorem download_missing_headers_hard_fail_witness :
    ((pyFalsyStrOpt (none : Option String) || pyFalsyStrOpt (some "h")) = true) ∧
    (requestDownloadRun w8hash ⟨none, some "h", [1, 2]⟩ (.filePath "/tmp/x")
       = (.retFalse, none) ∧
     requestExecute false
       (fun _ => dlAttempt
         (requestDownloadRun w8hash ⟨none, some "h", [1, 2]⟩
           (.filePath "/tmp/x")).1) stA
       = (some (.ret .rFalse), stA, trace0.bump)) :=
  ⟨by decide,
   download_missing_headers_hard_fail w8hash ⟨none, some "h", [1, 2]⟩
     (.filePath "/tmp/x") stA (by decide)⟩

/-- C10: with a declared `Content-Length` parsing to `n`, the chunk
loop never produces more than `n` bytes — each read is capped by
`min(1048576, size_left)` — so the destination file of a
file-destination transfer holds at most `n` bytes even when the
response stream offers more data. -/
theorem download_never_exceeds_declared_length
    (sha1hex : List Nat → String) (p : String) (resp : DLResp) (n : Nat)
    (hcl : pyInt (resp.contentLength.getD "") = some n) :
    (dlLoop resp.body n).length ≤ n ∧
    ((requestDownloadRun sha1hex resp (.filePath p)).2.getD []).length ≤ n := by
  refine ⟨dlLoop_length_le resp.body n, ?_⟩
  by_cases hfal : (pyFalsyStrOpt resp.contentLength
      || pyFalsyStrOpt resp.checksumSha1) = true
  · have he : requestDownloadRun sha1hex resp (.filePath p)
        = (.retFalse, none) := by
      unfold requestDownloadRun
      rw [if_pos hfal]
    rw [he]
    exact Nat.zero_le n
  · have hfal2 : (pyFalsyStrOpt resp.contentLength
        || pyFalsyStrOpt resp.checksumSha1) = false := by
      simpa using hfal
    by_cases hck : resp.checksumSha1.getD "" = sha1hex (dlLoop resp.body n)
    · have he : requestDownloadRun sha1hex resp (.filePath p)
          = (.retPair (sha1hex (dlLoop resp.body n)) p,
             some (dlLoop resp.body n)) := by
        simp [requestDownloadRun, hfal2, hcl, hck]
      rw [he]
      exact dlLoop_length_le resp.body n
    · have he : requestDownloadRun sha1hex resp (.filePath p)
          = (.raiseURL "Incorrect sha1 signature", none) := by
        simp [requestDownloadRun, hfal2, hcl, hck]
      rw [he]
      exact Nat.zero_le n

/-- Witness for C10 at a concrete response that declares more bytes
than the body provides, and whose digest matches. -/
theorem download_never_exceeds_declared_length_witness :
    pyInt ((some "5" : Option String).getD "") = some 5 ∧
    ((dlLoop [9, 9] 5).length ≤ 5 ∧
     ((requestDownloadRun w8hash ⟨some "5", some "h", [9, 9]⟩
        (.filePath "/tmp/c")).2.getD []).length ≤ 5) :=
  ⟨by decide,
   download_never_exceeds_declared_length w8hash "/tmp/c"
     ⟨some "5", some "h", [9, 9]⟩ 5 (by decide)⟩

end BlendNet
